import Mathlib

/- Formal model of the zkTLS attestation-proof pipeline: the guest
commitment program (program/src/main.rs), the host run binary
(script/src/bin/main.rs), the EVM fixture-generation binary
(script/src/bin/evm.rs) and the vkey binary (script/src/bin/vkey.rs). -/

/-- Modelled from the spec: the Rust type `VerifyingDataOpt` of the external
`zktls_att_verification` crate (outside this repository): a structured
collection of attestation records plus auxiliary check material, immutable
once loaded.  Its internals are out of scope, so it is an abstract token. -/
structure VerifyingDataOpt where
  raw : Nat
deriving DecidableEq

/-- Modelled from the spec: the record collection returned by the external
`VerifyingDataOpt.get_records()`; internals out of scope, abstract token. -/
structure RecordCollection where
  raw : Nat
deriving DecidableEq

/-- One serialized value on the host-to-guest input stream or on the guest
public-value output stream.  `sp1_zkvm::io::read` and `commit` are typed:
a value carries its schema, and a typed read of the wrong schema fails. -/
inductive SerValue where
  | str (s : String)
  | data (d : VerifyingDataOpt)
  | records (r : RecordCollection)
deriving DecidableEq

/-- The guest commitment program, program/src/main.rs: read a `String`
verifying key, read a `VerifyingDataOpt`, compute the verification result
and discard it (`let _ = verifying_data.verify(&verifying_key).is_ok();`),
commit the key, commit the records.  The external `VerificationLibrary`
collaborators `verify` and `getRecords` are parameters.  The result is the
committed output stream paired with the unconsumed input, or `none` when a
typed read fails. -/
def guestMain (verify : VerifyingDataOpt → String → Bool)
    (getRecords : VerifyingDataOpt → RecordCollection)
    (input : List SerValue) : Option (List SerValue × List SerValue) :=
  match input with
  | SerValue.str verifying_key :: SerValue.data verifying_data :: rest =>
      let _ := verify verifying_data verifying_key
      some ([SerValue.str verifying_key,
             SerValue.records (getRecords verifying_data)], rest)
  | _ => none

/-- Program counter of the guest commitment program, one phase per statement
of program/src/main.rs. -/
inductive GuestPhase where
  | start
  | readKey
  | readData
  | checked
  | committedKey
  | done
deriving DecidableEq

/-- State of one guest execution: current phase, remaining input stream,
committed output stream so far, and the two local variables. -/
structure GuestState where
  phase : GuestPhase
  input : List SerValue
  output : List SerValue
  keyReg : Option String
  dataReg : Option VerifyingDataOpt
deriving DecidableEq

/-- Initial guest state on a given input stream. -/
def guestInit (input : List SerValue) : GuestState :=
  ⟨GuestPhase.start, input, [], none, none⟩

/-- Small-step semantics of the guest commitment program, one step per
statement of program/src/main.rs, in program order: read the key, read the
dataset, compute the verification check (result discarded: the step does
not depend on the value of `verify`), commit the key, commit the records. -/
inductive GuestStep (verify : VerifyingDataOpt → String → Bool)
    (getRecords : VerifyingDataOpt → RecordCollection) :
    GuestState → GuestState → Prop where
  | read_key (k : String) (rest out : List SerValue) (kr : Option String)
      (dr : Option VerifyingDataOpt) :
      GuestStep verify getRecords
        ⟨GuestPhase.start, SerValue.str k :: rest, out, kr, dr⟩
        ⟨GuestPhase.readKey, rest, out, some k, dr⟩
  | read_data (d : VerifyingDataOpt) (rest out : List SerValue) (k : String)
      (dr : Option VerifyingDataOpt) :
      GuestStep verify getRecords
        ⟨GuestPhase.readKey, SerValue.data d :: rest, out, some k, dr⟩
        ⟨GuestPhase.readData, rest, out, some k, some d⟩
  | check (inp out : List SerValue) (k : String) (d : VerifyingDataOpt) :
      GuestStep verify getRecords
        ⟨GuestPhase.readData, inp, out, some k, some d⟩
        ⟨GuestPhase.checked, inp, out, some k, some d⟩
  | commit_key (inp out : List SerValue) (k : String) (d : VerifyingDataOpt) :
      GuestStep verify getRecords
        ⟨GuestPhase.checked, inp, out, some k, some d⟩
        ⟨GuestPhase.committedKey, inp, out ++ [SerValue.str k], some k, some d⟩
  | commit_records (inp out : List SerValue) (k : String) (d : VerifyingDataOpt) :
      GuestStep verify getRecords
        ⟨GuestPhase.committedKey, inp, out, some k, some d⟩
        ⟨GuestPhase.done, inp, out ++ [SerValue.records (getRecords d)],
          some k, some d⟩

/-- Reflexive-transitive closure of `GuestStep`: a (possibly partial) run of
the guest program. -/
inductive GuestRun (verify : VerifyingDataOpt → String → Bool)
    (getRecords : VerifyingDataOpt → RecordCollection) :
    GuestState → GuestState → Prop where
  | refl (s : GuestState) : GuestRun verify getRecords s s
  | head {s t u : GuestState} : GuestStep verify getRecords s t →
      GuestRun verify getRecords t u → GuestRun verify getRecords s u

/-- Result of a host-side `load` call: `ok` with the final input stream,
`exit1` for `std::process::exit(1)` after the `eprintln!` diagnostic, or
`panic` for a `.unwrap()` / `.expect` failure.  `exit1` and `panic` carry
the input stream as it stood when the process died. -/
inductive LoadResult where
  | ok (stdin : List SerValue)
  | exit1 (msg : String) (stdin : List SerValue)
  | panic (stdin : List SerValue)
deriving DecidableEq

/-- One branch of the host loaders, abstracted over the two file paths:
read the verifying-key file, write it to the input stream, read the dataset
file, parse it as a `VerifyingDataOpt`, write that to the input stream.
`parse` models `serde_json::from_str`; `fs` models the file system, mapping
a path to the contents of the file there, if any. -/
def loadFrom (parse : String → Option VerifyingDataOpt)
    (fs : String → Option String) (keyPath dataPath : String)
    (stdin : List SerValue) : LoadResult :=
  match fs keyPath with
  | none => LoadResult.panic stdin
  | some verifying_key =>
    let stdin := stdin ++ [SerValue.str verifying_key]
    match fs dataPath with
    | none => LoadResult.panic stdin
    | some rawData =>
      match parse rawData with
      | none => LoadResult.panic stdin
      | some verifying_data => LoadResult.ok (stdin ++ [SerValue.data verifying_data])

/-- Backend selector of the fixture-generation binary (`enum ProofSystem`
in script/src/bin/evm.rs). -/
inductive ProofSystem where
  | Plonk
  | Groth16
deriving DecidableEq

/-- The Rust `{:?}` debug rendering of a `ProofSystem` value. -/
def ProofSystem.debugName : ProofSystem → String
  | ProofSystem.Plonk => "Plonk"
  | ProofSystem.Groth16 => "Groth16"

/-- Modelled from the spec: an SP1 proving key, a backend setup artifact
derived per guest binary; internals out of scope, abstract token. -/
structure SP1ProvingKey where
  raw : Nat
deriving DecidableEq

/-- Modelled from the spec: an SP1 verifying key; the only operation the
code under verification applies to it is `bytes32()`, its fixed-size
commitment rendered as a hex string. -/
structure SP1VerifyingKey where
  bytes32 : String
deriving DecidableEq

/-- Modelled from the spec: `SP1ProofWithPublicValues` - opaque proof bytes
(`proof.bytes()`) plus the committed public values (`proof.public_values`). -/
structure SP1ProofWithPublicValues where
  publicValues : List Nat
  proofBytes : List Nat
deriving DecidableEq

/-- Modelled from the spec: the execution report returned by
`client.execute`, of which the code reads `total_instruction_count()`. -/
structure ExecutionReport where
  totalInstructionCount : Nat
deriving DecidableEq

/-- Modelled from the spec: the guest binary embedded by `include_elf!`;
its bytes are external, so it is an abstract token.  All entry points embed
the one program `zktls-program`. -/
structure ElfFile where
  raw : Nat
deriving DecidableEq

/-- The one guest binary, `include_elf!("zktls-program")`, shared by the
run binary, the fixture-generation binary and the vkey binary. -/
def ZKTLS_ELF : ElfFile := ⟨0⟩

/-- Modelled from the spec: the ZKVMRuntime host primitives (`sp1_sdk`,
external collaborator).  `setup` derives the proving/verifying key pair
deterministically from the guest binary (the verification key stays the
same regardless of the input); `execute` runs the guest without proving
and reports an instruction count; `proveCore` is `client.prove(..).run()`;
`proveEvm` is `client.prove(..).plonk()/.groth16().run()`; `verify` is the
local proof check.  A `none` result models a failing host primitive, which
the callers turn into a panic via `.unwrap()` or `.expect`. -/
structure ZKVM where
  setup : ElfFile → SP1ProvingKey × SP1VerifyingKey
  execute : ElfFile → List SerValue → Option (List Nat × ExecutionReport)
  proveCore : SP1ProvingKey → List SerValue → Option SP1ProofWithPublicValues
  proveEvm : SP1ProvingKey → List SerValue → ProofSystem →
    Option SP1ProofWithPublicValues
  verify : SP1ProofWithPublicValues → SP1VerifyingKey → Bool

/-- Observable host-process events, in program order: diagnostics, process
exit, panics, key setup, guest execution, proof generation (core backend or
an EVM backend), local proof verification, directory creation and file
writes. -/
inductive Event where
  | eprintln (s : String)
  | println (s : String)
  | exited (code : Nat)
  | panicked
  | setupKeys
  | executeGuest
  | proveRun (sys : Option ProofSystem)
  | verifyProof
  | mkdirAll (path : String)
  | writeFile (path : String) (contents : String)
deriving DecidableEq

/-- Effect of one event on the file system: a `writeFile` replaces whatever
was at that path; every other event leaves the file system unchanged. -/
def applyEvent (fs : String → Option String) (e : Event) :
    String → Option String :=
  match e with
  | Event.writeFile p c => fun q => if q = p then some c else fs q
  | _ => fs

/-- Effect of a trace of events on the file system, applied in order. -/
def applyEvents (fs : String → Option String) (es : List Event) :
    String → Option String :=
  es.foldl applyEvent fs

/-- Lowercase hex digit for a value below 16, as produced by `hex::encode`. -/
def hexDigitChar (n : Nat) : Char :=
  if n < 10 then Char.ofNat (48 + n) else Char.ofNat (87 + n)

/-- Two-digit lowercase hex rendering of one byte. -/
def hexByte (b : Nat) : String :=
  String.mk [hexDigitChar (b / 16 % 16), hexDigitChar (b % 16)]

/-- `hex::encode`: lowercase hex rendering of a byte sequence. -/
def hexEncode (bs : List Nat) : String :=
  String.join (bs.map hexByte)

/-- Rust `str::to_lowercase` on the ASCII strings this code feeds it:
lowercase every character. -/
def lowercaseString (s : String) : String :=
  String.mk (s.data.map Char.toLower)

/-- The fixture persisted for the on-chain verifier, `SP1ZktlsProofFixture`
in script/src/bin/evm.rs: exactly two fields, `vkey` and `proof`.  The
commented-out `zktls_verification_key` / `records` fields of the source are
dead code and are not part of the shipped artifact. -/
structure SP1ZktlsProofFixture where
  vkey : String
  proof : String
deriving DecidableEq

/-- The `serde_json::to_string_pretty` rendering of a fixture: the two
fields in declaration order at indent 2.  JSON string escaping is elided:
both fields are hex strings, which contain no character that `serde_json`
escapes. -/
def fixtureJsonPretty (f : SP1ZktlsProofFixture) : String :=
  "\x7b\n  \"vkey\": \"" ++ f.vkey ++ "\",\n  \"proof\": \"" ++ f.proof ++
    "\"\n\x7d"

/-- `create_proof_fixture` of script/src/bin/evm.rs: read and discard the
public values, build the fixture from `vk.bytes32()` and the 0x-prefixed
hex proof bytes, print both fields, create the fixture directory, then
write the pretty-printed fixture to the path keyed by the lowercased debug
name of the backend.  `cargoManifestDir` models `env!("CARGO_MANIFEST_DIR")`. -/
def create_proof_fixture (cargoManifestDir : String)
    (proof : SP1ProofWithPublicValues) (vk : SP1VerifyingKey)
    (system : ProofSystem) : List Event :=
  let _bytes := proof.publicValues
  let fixture : SP1ZktlsProofFixture :=
    ⟨vk.bytes32, "0x" ++ hexEncode proof.proofBytes⟩
  let fixture_path := cargoManifestDir ++ "/../contracts/src/fixtures"
  [Event.println ("Verification Key: " ++ fixture.vkey),
   Event.println ("Proof Bytes: " ++ fixture.proof),
   Event.mkdirAll fixture_path,
   Event.writeFile
     (fixture_path ++ "/" ++
       lowercaseString (ProofSystem.debugName system ++ "-fixture.json"))
     (fixtureJsonPretty fixture)]

/-- Command-line arguments of the run binary (`struct Args`). -/
structure Args where
  execute : Bool
  prove : Bool
  zktls_length : Nat
deriving DecidableEq

/-- Command-line arguments of the fixture-generation binary
(`struct EVMArgs`). -/
structure EVMArgs where
  system : ProofSystem
  zktls_length : Nat
deriving DecidableEq

namespace MainBin

/-- The `load` function of the run binary, script/src/bin/main.rs: a
four-way dispatch on the dataset-size selector, each branch reading the
shared verifying-key file and its own dataset file and writing both to the
input stream; any other selector prints the diagnostic and exits 1. -/
def load (parse : String → Option VerifyingDataOpt)
    (fs : String → Option String) (length : Nat)
    (stdin : List SerValue) : LoadResult :=
  if length = 16 then
    match fs ("fixtures/zktls/verifying_k256.key") with
    | none => LoadResult.panic stdin
    | some verifying_key =>
      let stdin := stdin ++ [SerValue.str verifying_key]
      match fs ("fixtures/zktls/data/bench16.json") with
      | none => LoadResult.panic stdin
      | some rawData =>
        match parse rawData with
        | none => LoadResult.panic stdin
        | some verifying_data => LoadResult.ok (stdin ++ [SerValue.data verifying_data])
  else if length = 256 then
    match fs ("fixtures/zktls/verifying_k256.key") with
    | none => LoadResult.panic stdin
    | some verifying_key =>
      let stdin := stdin ++ [SerValue.str verifying_key]
      match fs ("fixtures/zktls/data/bench256.json") with
      | none => LoadResult.panic stdin
      | some rawData =>
        match parse rawData with
        | none => LoadResult.panic stdin
        | some verifying_data => LoadResult.ok (stdin ++ [SerValue.data verifying_data])
  else if length = 1024 then
    match fs ("fixtures/zktls/verifying_k256.key") with
    | none => LoadResult.panic stdin
    | some verifying_key =>
      let stdin := stdin ++ [SerValue.str verifying_key]
      match fs ("fixtures/zktls/data/bench1024.json") with
      | none => LoadResult.panic stdin
      | some rawData =>
        match parse rawData with
        | none => LoadResult.panic stdin
        | some verifying_data => LoadResult.ok (stdin ++ [SerValue.data verifying_data])
  else if length = 2048 then
    match fs ("fixtures/zktls/verifying_k256.key") with
    | none => LoadResult.panic stdin
    | some verifying_key =>
      let stdin := stdin ++ [SerValue.str verifying_key]
      match fs ("fixtures/zktls/data/bench2048.json") with
      | none => LoadResult.panic stdin
      | some rawData =>
        match parse rawData with
        | none => LoadResult.panic stdin
        | some verifying_data => LoadResult.ok (stdin ++ [SerValue.data verifying_data])
  else
    LoadResult.exit1 ("Unsupported length: " ++ toString length) stdin

/-- The body of the run binary after the flag check: load the input stream,
print the length, then either execute the guest (printing a success message
and the cycle count) or set up keys, generate a core proof and verify it
locally, panicking on any failure. -/
def run (z : ZKVM) (parse : String → Option VerifyingDataOpt)
    (fs : String → Option String) (args : Args) : List Event :=
  match load parse fs args.zktls_length [] with
  | LoadResult.exit1 msg _ => [Event.eprintln msg, Event.exited 1]
  | LoadResult.panic _ => [Event.panicked]
  | LoadResult.ok stdin =>
    Event.println ("zktls verification length: " ++ toString args.zktls_length) ::
    if args.execute then
      Event.executeGuest ::
      match z.execute ZKTLS_ELF stdin with
      | none => [Event.panicked]
      | some (_, report) =>
        [Event.println ("Program executed successfully."),
         Event.println ("Number of cycles: " ++
           toString report.totalInstructionCount)]
    else
      let pkvk := z.setup ZKTLS_ELF
      Event.setupKeys ::
      Event.proveRun none ::
      match z.proveCore pkvk.1 stdin with
      | none => [Event.panicked]
      | some proofVal =>
        Event.println ("Successfully generated proof!") ::
        Event.verifyProof ::
        if z.verify proofVal pkvk.2 then
          [Event.println ("Successfully verified proof!")]
        else
          [Event.panicked]

/-- The `main` of the run binary, script/src/bin/main.rs: the
mutual-exclusion check on the execute/prove flags runs first and exits 1
with the fixed diagnostic when it fails; otherwise the body runs. -/
def main (z : ZKVM) (parse : String → Option VerifyingDataOpt)
    (fs : String → Option String) (args : Args) : List Event :=
  if args.execute = args.prove then
    [Event.eprintln ("Error: You must specify either --execute or --prove"),
     Event.exited 1]
  else
    run z parse fs args

end MainBin

namespace EvmBin

/-- The `load` function of the fixture-generation binary,
script/src/bin/evm.rs: textually the same four-way dispatch as the run
binary's `load`. -/
def load (parse : String → Option VerifyingDataOpt)
    (fs : String → Option String) (length : Nat)
    (stdin : List SerValue) : LoadResult :=
  if length = 16 then
    match fs ("fixtures/zktls/verifying_k256.key") with
    | none => LoadResult.panic stdin
    | some verifying_key =>
      let stdin := stdin ++ [SerValue.str verifying_key]
      match fs ("fixtures/zktls/data/bench16.json") with
      | none => LoadResult.panic stdin
      | some rawData =>
        match parse rawData with
        | none => LoadResult.panic stdin
        | some verifying_data => LoadResult.ok (stdin ++ [SerValue.data verifying_data])
  else if length = 256 then
    match fs ("fixtures/zktls/verifying_k256.key") with
    | none => LoadResult.panic stdin
    | some verifying_key =>
      let stdin := stdin ++ [SerValue.str verifying_key]
      match fs ("fixtures/zktls/data/bench256.json") with
      | none => LoadResult.panic stdin
      | some rawData =>
        match parse rawData with
        | none => LoadResult.panic stdin
        | some verifying_data => LoadResult.ok (stdin ++ [SerValue.data verifying_data])
  else if length = 1024 then
    match fs ("fixtures/zktls/verifying_k256.key") with
    | none => LoadResult.panic stdin
    | some verifying_key =>
      let stdin := stdin ++ [SerValue.str verifying_key]
      match fs ("fixtures/zktls/data/bench1024.json") with
      | none => LoadResult.panic stdin
      | some rawData =>
        match parse rawData with
        | none => LoadResult.panic stdin
        | some verifying_data => LoadResult.ok (stdin ++ [SerValue.data verifying_data])
  else if length = 2048 then
    match fs ("fixtures/zktls/verifying_k256.key") with
    | none => LoadResult.panic stdin
    | some verifying_key =>
      let stdin := stdin ++ [SerValue.str verifying_key]
      match fs ("fixtures/zktls/data/bench2048.json") with
      | none => LoadResult.panic stdin
      | some rawData =>
        match parse rawData with
        | none => LoadResult.panic stdin
        | some verifying_data => LoadResult.ok (stdin ++ [SerValue.data verifying_data])
  else
    LoadResult.exit1 ("Unsupported length: " ++ toString length) stdin

/-- The `main` of the fixture-generation binary, script/src/bin/evm.rs:
set up the proving/verifying key pair for the guest binary, load the input
stream, print the length and the backend, generate a proof with the
selected EVM backend, then hand the proof straight to
`create_proof_fixture`.  No local verification step occurs anywhere in
this flow. -/
def main (z : ZKVM) (parse : String → Option VerifyingDataOpt)
    (fs : String → Option String) (cargoManifestDir : String)
    (args : EVMArgs) : List Event :=
  let pkvk := z.setup ZKTLS_ELF
  Event.setupKeys ::
  match load parse fs args.zktls_length [] with
  | LoadResult.exit1 msg _ => [Event.eprintln msg, Event.exited 1]
  | LoadResult.panic _ => [Event.panicked]
  | LoadResult.ok stdin =>
    Event.println ("zktls verification length: " ++ toString args.zktls_length) ::
    Event.println ("Proof System: " ++ ProofSystem.debugName args.system) ::
    Event.proveRun (some args.system) ::
    match z.proveEvm pkvk.1 stdin args.system with
    | none => [Event.panicked]
    | some proofVal => create_proof_fixture cargoManifestDir proofVal pkvk.2 args.system

end EvmBin

namespace VkeyBin

/-- The `main` of the vkey binary, script/src/bin/vkey.rs: set up keys for
the same guest binary and print the bytes32 commitment of the verifying
key. -/
def main (z : ZKVM) : List Event :=
  [Event.println (z.setup ZKTLS_ELF).2.bytes32]

end VkeyBin

/-- A concrete attestation dataset token, used to instantiate theorems. -/
def demoData : VerifyingDataOpt := ⟨0⟩

/-- A concrete instance of the external verification check. -/
def demoVerify : VerifyingDataOpt → String → Bool := fun _ _ => true

/-- A concrete instance of the external record extractor. -/
def demoRecords : VerifyingDataOpt → RecordCollection := fun _ => ⟨0⟩

/-- A concrete JSON parser instance that accepts every input. -/
def demoParse : String → Option VerifyingDataOpt := fun _ => some demoData

/-- A concrete file system holding the shared verifying-key file and the
size-16 dataset file, and nothing else. -/
def demoFs : String → Option String := fun p =>
  if p = "fixtures/zktls/verifying_k256.key" then some ("KEY")
  else if p = "fixtures/zktls/data/bench16.json" then some ("DATA")
  else none

/-- A file system agreeing with `demoFs` on the two fixture-source paths
and differing everywhere else. -/
def demoFsJunk : String → Option String := fun p =>
  if p = "fixtures/zktls/verifying_k256.key" then some ("KEY")
  else if p = "fixtures/zktls/data/bench16.json" then some ("DATA")
  else some ("JUNK")

/-- A concrete proving-machine runtime in which every primitive succeeds. -/
def demoZkvm : ZKVM :=
  ⟨fun _ => (⟨0⟩, ⟨"0x00aa"⟩),
   fun _ _ => some ([], ⟨100⟩),
   fun _ _ => some ⟨[1], [2]⟩,
   fun _ _ _ => some ⟨[1], [2, 3]⟩,
   fun _ _ => true⟩

theorem guestStep_deterministic (verify : VerifyingDataOpt → String → Bool)
    (getRecords : VerifyingDataOpt → RecordCollection) (s t1 t2 : GuestState)
    (h1 : GuestStep verify getRecords s t1)
    (h2 : GuestStep verify getRecords s t2) : t1 = t2 := by
  cases h1 <;> cases h2 <;> simp_all

theorem guestStep_done (verify : VerifyingDataOpt → String → Bool)
    (getRecords : VerifyingDataOpt → RecordCollection) (s t : GuestState)
    (hdone : s.phase = GuestPhase.done) :
    ¬ GuestStep verify getRecords s t := by
  intro h
  cases h <;> simp_all

theorem guestRun_done_unique (verify : VerifyingDataOpt → String → Bool)
    (getRecords : VerifyingDataOpt → RecordCollection) (a b1 : GuestState)
    (h1 : GuestRun verify getRecords a b1) :
    ∀ b2 : GuestState, GuestRun verify getRecords a b2 →
      b1.phase = GuestPhase.done → b2.phase = GuestPhase.done → b1 = b2 := by
  induction h1 with
  | refl s =>
    intro b2 h2 d1 d2
    cases h2 with
    | refl => rfl
    | head step rest => exact absurd step (guestStep_done _ _ _ _ d1)
  | head step rest ih =>
    intro b2 h2 d1 d2
    cases h2 with
    | refl => exact absurd step (guestStep_done _ _ _ _ d2)
    | head step2 rest2 =>
      have heq := guestStep_deterministic _ _ _ _ _ step step2
      subst heq
      exact ih b2 rest2 d1 d2

/-- A complete run of the guest program on a well-formed input stream: reads
the first two values (key then dataset), then checks, then commits the key,
then commits the records, ending in the `done` phase with the tail of the
stream unconsumed. -/
theorem guestRun_complete (verify : VerifyingDataOpt → String → Bool)
    (getRecords : VerifyingDataOpt → RecordCollection) (k : String)
    (d : VerifyingDataOpt) (rest : List SerValue) :
    GuestRun verify getRecords
      (guestInit (SerValue.str k :: SerValue.data d :: rest))
      ⟨GuestPhase.done, rest,
        [SerValue.str k, SerValue.records (getRecords d)], some k, some d⟩ := by
  refine GuestRun.head (GuestStep.read_key k (SerValue.data d :: rest) [] none none) ?_
  refine GuestRun.head (GuestStep.read_data d rest [] k none) ?_
  refine GuestRun.head (GuestStep.check rest [] k d) ?_
  refine GuestRun.head (GuestStep.commit_key rest [] k d) ?_
  exact GuestRun.head (GuestStep.commit_records rest [SerValue.str k] k d)
    (GuestRun.refl _)

/-- C9: the `load` function of the run binary and the `load` function of the
fixture-generation binary are extensionally equal: on every parser, file
system, dataset-size selector and initial input stream they produce the same
result - the same exit-1 diagnostic, the same panic point, or the same two
written values (the same verifying-key string followed by the same parsed
dataset). -/
theorem c9_load_functions_extensionally_equal
    (parse : String → Option VerifyingDataOpt) (fs : String → Option String)
    (length : Nat) (stdin : List SerValue) :
    MainBin.load parse fs length stdin = EvmBin.load parse fs length stdin := rfl

/-- C2: the guest computes the success/failure of the verification check but
does not use it to branch or to shape output: the committed public values do
not depend on the verification function at all, and on any well-formed input
pair they are exactly the verifying key followed by the extracted records,
whether verification accepts or rejects. -/
theorem c2_verify_outcome_does_not_shape_output :
    (∀ (getRecords : VerifyingDataOpt → RecordCollection)
        (v1 v2 : VerifyingDataOpt → String → Bool) (input : List SerValue),
        guestMain v1 getRecords input = guestMain v2 getRecords input)
    ∧ (∀ (verify : VerifyingDataOpt → String → Bool)
        (getRecords : VerifyingDataOpt → RecordCollection) (k : String)
        (d : VerifyingDataOpt) (rest : List SerValue),
        guestMain verify getRecords (SerValue.str k :: SerValue.data d :: rest)
          = some ([SerValue.str k, SerValue.records (getRecords d)], rest)) := by
  constructor
  · intro getRecords v1 v2 input
    match input with
    | [] => rfl
    | [SerValue.str k] => rfl
    | SerValue.str k :: SerValue.data d :: rest => rfl
    | SerValue.str k :: SerValue.str s :: rest => rfl
    | SerValue.str k :: SerValue.records r :: rest => rfl
    | SerValue.data d :: rest => rfl
    | SerValue.records r :: rest => rfl
  · intro verify getRecords k d rest
    rfl

/-- C5: the run binary requires exactly one of the execute/prove flags: when
the two booleans coincide the process prints the fixed mutual-exclusion
diagnostic and exits with code 1 immediately - with a result independent of
the file system, the parser and the proving machine, hence before any input
load, execution, proving or file write; when exactly one flag is set the
check passes and the body runs. -/
theorem c5_mutual_exclusion (z z2 : ZKVM)
    (parse parse2 : String → Option VerifyingDataOpt)
    (fs fs2 : String → Option String) (args : Args) :
    (args.execute = args.prove →
      MainBin.main z parse fs args
        = [Event.eprintln ("Error: You must specify either --execute or --prove"),
           Event.exited 1]
      ∧ MainBin.main z parse fs args = MainBin.main z2 parse2 fs2 args)
    ∧ (args.execute ≠ args.prove →
        MainBin.main z parse fs args = MainBin.run z parse fs args) := by
  constructor
  · intro h
    constructor
    · simp [MainBin.main, h]
    · simp [MainBin.main, h]
  · intro h
    simp [MainBin.main, h]

/-- C5 witness: with both flags set the run binary exits with the fixed
diagnostic; with only the execute flag set the check passes and the body
runs. -/
theorem c5_mutual_exclusion_witness :
    (MainBin.main demoZkvm demoParse demoFs ⟨true, true, 16⟩
      = [Event.eprintln ("Error: You must specify either --execute or --prove"),
         Event.exited 1])
    ∧ MainBin.main demoZkvm demoParse demoFs ⟨true, false, 16⟩
      = MainBin.run demoZkvm demoParse demoFs ⟨true, false, 16⟩ :=
  ⟨((c5_mutual_exclusion demoZkvm demoZkvm demoParse demoParse demoFs demoFs
      ⟨true, true, 16⟩).1 rfl).1,
   (c5_mutual_exclusion demoZkvm demoZkvm demoParse demoParse demoFs demoFs
      ⟨true, false, 16⟩).2 (by decide)⟩

/-- C6: for every dataset-size selector outside the closed set
{16, 256, 1024, 2048}, input loading in both the run binary and the
fixture-generation binary leaves the input stream exactly as it was, prints
a diagnostic that names the unsupported size, and exits the process with
code 1; the surrounding binaries terminate on that exit, and in particular
the fixture-generation binary writes no file. -/
theorem c6_unsupported_length (parse : String → Option VerifyingDataOpt)
    (fs : String → Option String) (length : Nat) (stdin : List SerValue)
    (z : ZKVM) (dir : String) (sys : ProofSystem) (exec prov : Bool)
    (h16 : length ≠ 16) (h256 : length ≠ 256) (h1024 : length ≠ 1024)
    (h2048 : length ≠ 2048) :
    MainBin.load parse fs length stdin
      = LoadResult.exit1 ("Unsupported length: " ++ toString length) stdin
    ∧ EvmBin.load parse fs length stdin
      = LoadResult.exit1 ("Unsupported length: " ++ toString length) stdin
    ∧ (exec ≠ prov →
        MainBin.main z parse fs ⟨exec, prov, length⟩
          = [Event.eprintln ("Unsupported length: " ++ toString length),
             Event.exited 1])
    ∧ EvmBin.main z parse fs dir ⟨sys, length⟩
        = [Event.setupKeys,
           Event.eprintln ("Unsupported length: " ++ toString length),
           Event.exited 1]
    ∧ (∀ p c, Event.writeFile p c ∉ EvmBin.main z parse fs dir ⟨sys, length⟩) := by
  have hmain : ∀ s : List SerValue, MainBin.load parse fs length s
      = LoadResult.exit1 ("Unsupported length: " ++ toString length) s := by
    intro s
    simp [MainBin.load, h16, h256, h1024, h2048]
  have hevm : ∀ s : List SerValue, EvmBin.load parse fs length s
      = LoadResult.exit1 ("Unsupported length: " ++ toString length) s := by
    intro s
    simp [EvmBin.load, h16, h256, h1024, h2048]
  have hevmMain : EvmBin.main z parse fs dir ⟨sys, length⟩
      = [Event.setupKeys,
         Event.eprintln ("Unsupported length: " ++ toString length),
         Event.exited 1] := by
    simp [EvmBin.main, hevm]
  refine ⟨hmain stdin, hevm stdin, ?_, hevmMain, ?_⟩
  · intro hne
    simp [MainBin.main, MainBin.run, hne, hmain]
  · intro p c
    rw [hevmMain]
    simp

/-- C6 witness: selector 99 makes both loaders exit 1 with the diagnostic
naming 99, with the input stream untouched, and the fixture-generation
binary writes nothing. -/
theorem c6_unsupported_length_witness :
    MainBin.load demoParse demoFs 99 []
      = LoadResult.exit1 ("Unsupported length: " ++ toString 99) []
    ∧ EvmBin.main demoZkvm demoParse demoFs ("script") ⟨ProofSystem.Groth16, 99⟩
      = [Event.setupKeys,
         Event.eprintln ("Unsupported length: " ++ toString 99),
         Event.exited 1]
    ∧ MainBin.main demoZkvm demoParse demoFs ⟨true, false, 99⟩
      = [Event.eprintln ("Unsupported length: " ++ toString 99),
         Event.exited 1] := by
  have h := c6_unsupported_length demoParse demoFs 99 [] demoZkvm ("script")
    ProofSystem.Groth16 true false (by decide) (by decide) (by decide) (by decide)
  exact ⟨h.1, h.2.2.2.1, h.2.2.1 (by decide)⟩

/-- C7: for every supported selector, both loaders read the verifying key
from the one fixed source shared across all selectors and the dataset from
the per-selector source; the selector affects nothing else about the loaded
input stream, and the load result depends on the file system only through
those two paths. -/
theorem c7_fixed_sources (parse : String → Option VerifyingDataOpt)
    (fs fs1 fs2 : String → Option String) (stdin : List SerValue) :
    (MainBin.load parse fs 16 stdin
      = loadFrom parse fs ("fixtures/zktls/verifying_k256.key")
          ("fixtures/zktls/data/bench16.json") stdin)
    ∧ (MainBin.load parse fs 256 stdin
      = loadFrom parse fs ("fixtures/zktls/verifying_k256.key")
          ("fixtures/zktls/data/bench256.json") stdin)
    ∧ (MainBin.load parse fs 1024 stdin
      = loadFrom parse fs ("fixtures/zktls/verifying_k256.key")
          ("fixtures/zktls/data/bench1024.json") stdin)
    ∧ (MainBin.load parse fs 2048 stdin
      = loadFrom parse fs ("fixtures/zktls/verifying_k256.key")
          ("fixtures/zktls/data/bench2048.json") stdin)
    ∧ (EvmBin.load parse fs 16 stdin
      = loadFrom parse fs ("fixtures/zktls/verifying_k256.key")
          ("fixtures/zktls/data/bench16.json") stdin)
    ∧ (EvmBin.load parse fs 256 stdin
      = loadFrom parse fs ("fixtures/zktls/verifying_k256.key")
          ("fixtures/zktls/data/bench256.json") stdin)
    ∧ (EvmBin.load parse fs 1024 stdin
      = loadFrom parse fs ("fixtures/zktls/verifying_k256.key")
          ("fixtures/zktls/data/bench1024.json") stdin)
    ∧ (EvmBin.load parse fs 2048 stdin
      = loadFrom parse fs ("fixtures/zktls/verifying_k256.key")
          ("fixtures/zktls/data/bench2048.json") stdin)
    ∧ (∀ keyPath dataPath : String, fs1 keyPath = fs2 keyPath →
        fs1 dataPath = fs2 dataPath →
        loadFrom parse fs1 keyPath dataPath stdin
          = loadFrom parse fs2 keyPath dataPath stdin) := by
  refine ⟨rfl, rfl, rfl, rfl, rfl, rfl, rfl, rfl, ?_⟩
  intro keyPath dataPath hk hd
  simp only [loadFrom]
  rw [hk, hd]

/-- C7 witness: for selector 16 the run-binary loader agrees with the
single-branch loader on the fixed sources, and two file systems agreeing on
the two source paths while differing everywhere else load identically. -/
theorem c7_fixed_sources_witness :
    MainBin.load demoParse demoFs 16 []
      = loadFrom demoParse demoFs ("fixtures/zktls/verifying_k256.key")
          ("fixtures/zktls/data/bench16.json") []
    ∧ loadFrom demoParse demoFs ("fixtures/zktls/verifying_k256.key")
          ("fixtures/zktls/data/bench16.json") []
      = loadFrom demoParse demoFsJunk ("fixtures/zktls/verifying_k256.key")
          ("fixtures/zktls/data/bench16.json") [] := by
  have h := c7_fixed_sources demoParse demoFs demoFs demoFsJunk []
  exact ⟨h.1, h.2.2.2.2.2.2.2.2 ("fixtures/zktls/verifying_k256.key")
    ("fixtures/zktls/data/bench16.json") (by decide) (by decide)⟩

/-- C8: given a proof artifact, a verifying key and a backend selector, the
fixture emitter builds a fixture with exactly the two fields `vkey`
(the fixed-size key commitment `vk.bytes32()`) and `proof` (the string 0x
followed by the hex encoding of the proof bytes), prints both, creates the
fixture directory before writing, writes the pretty-printed fixture to the
fixed path whose file name is the lowercased backend name followed by
-fixture.json, and that write replaces any prior fixture at that path. -/
theorem c8_fixture_emitter (dir : String) (proofVal : SP1ProofWithPublicValues)
    (vk : SP1VerifyingKey) (sys : ProofSystem) (fs0 : String → Option String) :
    create_proof_fixture dir proofVal vk sys
      = [Event.println ("Verification Key: " ++ vk.bytes32),
         Event.println ("Proof Bytes: " ++ ("0x" ++ hexEncode proofVal.proofBytes)),
         Event.mkdirAll (dir ++ "/../contracts/src/fixtures"),
         Event.writeFile
           (dir ++ "/../contracts/src/fixtures" ++ "/" ++
             lowercaseString (ProofSystem.debugName sys ++ "-fixture.json"))
           (fixtureJsonPretty ⟨vk.bytes32, "0x" ++ hexEncode proofVal.proofBytes⟩)]
    ∧ applyEvents fs0 (create_proof_fixture dir proofVal vk sys)
        (dir ++ "/../contracts/src/fixtures" ++ "/" ++
          lowercaseString (ProofSystem.debugName sys ++ "-fixture.json"))
      = some (fixtureJsonPretty ⟨vk.bytes32, "0x" ++ hexEncode proofVal.proofBytes⟩)
    ∧ lowercaseString (ProofSystem.debugName ProofSystem.Groth16 ++ "-fixture.json")
        = "groth16-fixture.json"
    ∧ lowercaseString (ProofSystem.debugName ProofSystem.Plonk ++ "-fixture.json")
        = "plonk-fixture.json" := by
  refine ⟨rfl, ?_, by decide, by decide⟩
  simp [applyEvents, applyEvent, create_proof_fixture]

/-- Helper: when a loader branch succeeds, the stream it wrote is exactly
the verifying-key string from the key source followed by the parsed
dataset from the data source. -/
theorem loadFrom_ok_shape (parse : String → Option VerifyingDataOpt)
    (fs : String → Option String) (keyPath dataPath : String)
    (out : List SerValue)
    (h : loadFrom parse fs keyPath dataPath [] = LoadResult.ok out) :
    ∃ k d, fs keyPath = some k ∧
      out = [SerValue.str k, SerValue.data d] := by
  unfold loadFrom at h
  cases hk : fs keyPath with
  | none => simp [hk] at h
  | some k =>
    cases hd : fs dataPath with
    | none => simp [hk, hd] at h
    | some rawData =>
      cases hp : parse rawData with
      | none => simp [hk, hd, hp] at h
      | some d =>
        simp [hk, hd, hp] at h
        exact ⟨k, d, rfl, h.symm⟩

/-- C3: the guest follows the fixed protocol order, matching the host's
write order: whenever the run binary's loader succeeds, the stream it wrote
is exactly the verifying-key string followed by the dataset; on that
stream, a run of the guest step machine reads the key first, then the
dataset, then checks, then commits the key, then commits the extracted
records - exactly two reads (the input is fully consumed) and exactly two
commits, in that order, as the final state shows. -/
theorem c3_protocol_order (parse : String → Option VerifyingDataOpt)
    (fs : String → Option String) (length : Nat) (out : List SerValue)
    (verify : VerifyingDataOpt → String → Bool)
    (getRecords : VerifyingDataOpt → RecordCollection)
    (hok : MainBin.load parse fs length [] = LoadResult.ok out) :
    ∃ k d, out = [SerValue.str k, SerValue.data d]
      ∧ guestMain verify getRecords out
          = some ([SerValue.str k, SerValue.records (getRecords d)], [])
      ∧ GuestRun verify getRecords (guestInit out)
          ⟨GuestPhase.done, [],
            [SerValue.str k, SerValue.records (getRecords d)],
            some k, some d⟩ := by
  have shape : ∃ k d, out = [SerValue.str k, SerValue.data d] := by
    by_cases e16 : length = 16
    · subst e16
      obtain ⟨k, d, _, hout⟩ := loadFrom_ok_shape parse fs
        ("fixtures/zktls/verifying_k256.key")
        ("fixtures/zktls/data/bench16.json") out hok
      exact ⟨k, d, hout⟩
    · by_cases e256 : length = 256
      · subst e256
        obtain ⟨k, d, _, hout⟩ := loadFrom_ok_shape parse fs
          ("fixtures/zktls/verifying_k256.key")
          ("fixtures/zktls/data/bench256.json") out hok
        exact ⟨k, d, hout⟩
      · by_cases e1024 : length = 1024
        · subst e1024
          obtain ⟨k, d, _, hout⟩ := loadFrom_ok_shape parse fs
            ("fixtures/zktls/verifying_k256.key")
            ("fixtures/zktls/data/bench1024.json") out hok
          exact ⟨k, d, hout⟩
        · by_cases e2048 : length = 2048
          · subst e2048
            obtain ⟨k, d, _, hout⟩ := loadFrom_ok_shape parse fs
              ("fixtures/zktls/verifying_k256.key")
              ("fixtures/zktls/data/bench2048.json") out hok
            exact ⟨k, d, hout⟩
          · exfalso
            simp [MainBin.load, e16, e256, e1024, e2048] at hok
  obtain ⟨k, d, hout⟩ := shape
  subst hout
  exact ⟨k, d, rfl, rfl, guestRun_complete verify getRecords k d []⟩

/-- C3 witness: a concrete successful load of the size-16 fixture sources
produces the two-value stream, and the guest consumes it in order. -/
theorem c3_protocol_order_witness :
    ∃ k d, [SerValue.str ("KEY"), SerValue.data demoData]
        = [SerValue.str k, SerValue.data d]
      ∧ guestMain demoVerify demoRecords
          [SerValue.str ("KEY"), SerValue.data demoData]
          = some ([SerValue.str k, SerValue.records (demoRecords d)], [])
      ∧ GuestRun demoVerify demoRecords
          (guestInit [SerValue.str ("KEY"), SerValue.data demoData])
          ⟨GuestPhase.done, [],
            [SerValue.str k, SerValue.records (demoRecords d)],
            some k, some d⟩ :=
  c3_protocol_order demoParse demoFs 16
    [SerValue.str ("KEY"), SerValue.data demoData]
    demoVerify demoRecords (by decide)

/-- C4: the guest is deterministic: any two complete executions of the
guest step machine from the same input stream end with identical committed
public-value streams (the machine has no nondeterministic step and no input
beyond the stream, and its step relation is functional). -/
theorem c4_guest_deterministic (verify : VerifyingDataOpt → String → Bool)
    (getRecords : VerifyingDataOpt → RecordCollection) (input : List SerValue)
    (s1 s2 : GuestState)
    (h1 : GuestRun verify getRecords (guestInit input) s1)
    (h2 : GuestRun verify getRecords (guestInit input) s2)
    (d1 : s1.phase = GuestPhase.done) (d2 : s2.phase = GuestPhase.done) :
    s1.output = s2.output := by
  have h := guestRun_done_unique verify getRecords _ _ h1 s2 h2 d1 d2
  rw [h]

/-- C4 witness: two complete runs on the same concrete two-value stream
produce the same committed outputs. -/
theorem c4_guest_deterministic_witness :
    (⟨GuestPhase.done, [],
      [SerValue.str ("KEY"), SerValue.records (demoRecords demoData)],
      some ("KEY"), some demoData⟩ : GuestState).output
      = [SerValue.str ("KEY"), SerValue.records (demoRecords demoData)] :=
  c4_guest_deterministic demoVerify demoRecords
    [SerValue.str ("KEY"), SerValue.data demoData] _ _
    (guestRun_complete demoVerify demoRecords ("KEY") demoData [])
    (guestRun_complete demoVerify demoRecords ("KEY") demoData [])
    rfl rfl

/-- C1 counterexample: a concrete fixture-producing run writes a fixture
file while its trace contains no local proof-verification event at all, so
a proof reaches the Fixture Emitter without ever having passed verify. -/
theorem c1_counterexample :
    Event.writeFile ("script/../contracts/src/fixtures/groth16-fixture.json")
        (fixtureJsonPretty ⟨"0x00aa", "0x" ++ hexEncode [2, 3]⟩)
      ∈ EvmBin.main demoZkvm demoParse demoFs ("script") ⟨ProofSystem.Groth16, 16⟩
    ∧ Event.verifyProof
      ∉ EvmBin.main demoZkvm demoParse demoFs ("script") ⟨ProofSystem.Groth16, 16⟩ := by
  decide

/-- C1 amended: in the fixture-producing flow no local proof verification
occurs at all: the trace of the fixture-generation binary never contains a
verification event and the fixture is written directly from the prover
output, while the run binary - the only flow that verifies a generated
proof against the derived verifying key - never writes a fixture file. -/
theorem c1_amended_no_verification_in_fixture_flow :
    (∀ (z : ZKVM) (parse : String → Option VerifyingDataOpt)
        (fs : String → Option String) (dir : String) (args : EVMArgs),
        Event.verifyProof ∉ EvmBin.main z parse fs dir args)
    ∧ (∀ (z : ZKVM) (parse : String → Option VerifyingDataOpt)
        (fs : String → Option String) (args : Args) (p c : String),
        Event.writeFile p c ∉ MainBin.main z parse fs args) := by
  constructor
  · intro z parse fs dir args
    unfold EvmBin.main
    cases hl : EvmBin.load parse fs args.zktls_length [] with
    | exit1 msg s => simp [hl]
    | panic s => simp [hl]
    | ok stdin =>
      simp only [hl]
      cases hp : z.proveEvm (z.setup ZKTLS_ELF).1 stdin args.system with
      | none => simp [hp]
      | some proofVal => simp [hp, create_proof_fixture]
  · intro z parse fs args p c
    unfold MainBin.main
    by_cases hep : args.execute = args.prove
    · simp [hep]
    · simp only [hep, if_false, if_neg]
      unfold MainBin.run
      cases hl : MainBin.load parse fs args.zktls_length [] with
      | exit1 msg s => simp [hl]
      | panic s => simp [hl]
      | ok stdin =>
        simp only [hl]
        by_cases hex : args.execute = true
        · simp only [hex, if_true]
          cases hz : z.execute ZKTLS_ELF stdin with
          | none => simp [hz]
          | some pr => simp [hz]
        · simp only [hex, if_false, Bool.not_eq_true]
          cases hpc : z.proveCore (z.setup ZKTLS_ELF).1 stdin with
          | none => simp [hex, hpc]
          | some pr =>
            by_cases hv : z.verify pr (z.setup ZKTLS_ELF).2 = true
            · simp [hex, hpc, hv]
            · simp [hex, hpc, hv]

/-- C10: every fixture written by the fixture-generation binary carries as
its `vkey` field the bytes32 commitment of the zkVM verifying key derived
by setup on the guest ELF - not the attestation verifying-key string loaded
from the fixture source - for every selector and environment; the fixture
does not depend on the guest's committed public values, which
`create_proof_fixture` reads and discards; and the standalone vkey binary
prints this same commitment for the same ELF. -/
theorem c10_vkey_is_setup_commitment :
    (∀ (z : ZKVM) (parse : String → Option VerifyingDataOpt)
        (fs : String → Option String) (dir : String) (args : EVMArgs)
        (p c : String),
        Event.writeFile p c ∈ EvmBin.main z parse fs dir args →
        ∃ pbytes : List Nat,
          c = fixtureJsonPretty
            ⟨(z.setup ZKTLS_ELF).2.bytes32, "0x" ++ hexEncode pbytes⟩)
    ∧ (∀ z : ZKVM,
        VkeyBin.main z = [Event.println (z.setup ZKTLS_ELF).2.bytes32])
    ∧ (∀ (dir : String) (pv1 pv2 pbytes : List Nat) (vk : SP1VerifyingKey)
        (sys : ProofSystem),
        create_proof_fixture dir ⟨pv1, pbytes⟩ vk sys
          = create_proof_fixture dir ⟨pv2, pbytes⟩ vk sys) := by
  refine ⟨?_, fun z => rfl, fun dir pv1 pv2 pbytes vk sys => rfl⟩
  intro z parse fs dir args p c hmem
  unfold EvmBin.main at hmem
  cases hl : EvmBin.load parse fs args.zktls_length [] with
  | exit1 msg s => simp [hl] at hmem
  | panic s => simp [hl] at hmem
  | ok stdin =>
    simp only [hl] at hmem
    cases hp : z.proveEvm (z.setup ZKTLS_ELF).1 stdin args.system with
    | none => simp [hp] at hmem
    | some proofVal =>
      simp [hp, create_proof_fixture] at hmem
      exact ⟨proofVal.proofBytes, hmem.2⟩

/-- C10 witness: in the concrete groth16 run, the written fixture contents
equal the fixture built from the setup-derived verifying-key commitment. -/
theorem c10_vkey_is_setup_commitment_witness :
    ∃ pbytes : List Nat,
      fixtureJsonPretty ⟨"0x00aa", "0x" ++ hexEncode [2, 3]⟩
        = fixtureJsonPretty
            ⟨(demoZkvm.setup ZKTLS_ELF).2.bytes32, "0x" ++ hexEncode pbytes⟩ :=
  (c10_vkey_is_setup_commitment).1 demoZkvm demoParse demoFs ("script")
    ⟨ProofSystem.Groth16, 16⟩
    ("script/../contracts/src/fixtures/groth16-fixture.json")
    (fixtureJsonPretty ⟨"0x00aa", "0x" ++ hexEncode [2, 3]⟩) (by decide)
